import Mathlib

/-!
Verification of the subprocess-execution utility layer (`src/lib/src/cmdutils.rs`).

The Rust code is shallowly embedded: files captured as redirected sinks become
a `FileModel` (byte content plus flags recording whether the fallible OS calls
on the file succeed), process exit statuses become `ExitStatus` (the raw unix
wait status), and the fallible environment of a runner invocation (tempfile
creation, handle cloning, spawn/wait) becomes an explicit environment record.
Each runner returns, alongside its result, a trace of observable I/O events so
that frame claims (what is and is not read) can be stated.
-/

namespace Cmdutils

/-- A UTF-8 continuation byte, `0x80 ..= 0xBF`. -/
def isCont (b : Nat) : Bool := 0x80 ≤ b && b ≤ 0xBF

/-- The Unicode replacement character U+FFFD. -/
def replChar : Char := Char.ofNat 0xFFFD

/-- Decode one UTF-8 sequence starting at byte `b`, with `rest` the following
bytes. Returns the decoded character (or U+FFFD) and how many bytes of `rest`
were consumed, following the maximal-subpart substitution policy of Rust's
`String::from_utf8_lossy` (table of `core::str::utf8_char_width` plus the
per-leading-byte ranges for the second byte). -/
def utf8DecodeOne (b : Nat) (rest : List Nat) : Char × Nat :=
  if b ≤ 0x7F then (Char.ofNat b, 0)
  else if 0xC2 ≤ b && b ≤ 0xDF then
    match rest with
    | b1 :: _ =>
      if isCont b1 then (Char.ofNat ((b - 0xC0) * 64 + (b1 - 0x80)), 1)
      else (replChar, 0)
    | [] => (replChar, 0)
  else if 0xE0 ≤ b && b ≤ 0xEF then
    let lo := if b == 0xE0 then 0xA0 else 0x80
    let hi := if b == 0xED then 0x9F else 0xBF
    match rest with
    | b1 :: rest1 =>
      if lo ≤ b1 && b1 ≤ hi then
        match rest1 with
        | b2 :: _ =>
          if isCont b2 then
            (Char.ofNat ((b - 0xE0) * 4096 + (b1 - 0x80) * 64 + (b2 - 0x80)), 2)
          else (replChar, 1)
        | [] => (replChar, 1)
      else (replChar, 0)
    | [] => (replChar, 0)
  else if 0xF0 ≤ b && b ≤ 0xF4 then
    let lo := if b == 0xF0 then 0x90 else 0x80
    let hi := if b == 0xF4 then 0x8F else 0xBF
    match rest with
    | b1 :: rest1 =>
      if lo ≤ b1 && b1 ≤ hi then
        match rest1 with
        | b2 :: rest2 =>
          if isCont b2 then
            match rest2 with
            | b3 :: _ =>
              if isCont b3 then
                (Char.ofNat
                  ((b - 0xF0) * 262144 + (b1 - 0x80) * 4096 + (b2 - 0x80) * 64 + (b3 - 0x80)), 3)
              else (replChar, 2)
            | [] => (replChar, 2)
          else (replChar, 1)
        | [] => (replChar, 1)
      else (replChar, 0)
    | [] => (replChar, 0)
  else (replChar, 0)

/-- Fuel-driven loop of the lossy decoder; each step consumes at least one
byte, so fuel `l.length` always suffices. -/
def utf8LossyGo : Nat → List Nat → List Char
  | 0, _ => []
  | _, [] => []
  | Nat.succ fuel, b :: rest =>
    let p := utf8DecodeOne b rest
    p.1 :: utf8LossyGo fuel (rest.drop p.2)

/-- Embedding of Rust's `String::from_utf8_lossy` (total; invalid sequences
become U+FFFD, never an error). -/
def from_utf8_lossy (l : List Nat) : String := String.mk (utf8LossyGo (l.length + 1) l)

/-- Model of a `std::fs::File` used as a redirected sink: its byte content,
whether the `metadata()` (fstat) call succeeds, and whether the
`seek`+`read_to_end` pair succeeds. -/
structure FileModel where
  content : List Nat
  metadataOk : Bool
  seekReadOk : Bool

/-- `MAX_STDERR_BYTES` from the source (`u16`, value 1024). -/
def MAX_STDERR_BYTES : Nat := 1024

/-- Embedding of `last_utf8_content_from_file`. The size is obtained from the
metadata when available (`u64 -> u16` via `try_into().unwrap_or(u16::MAX)`,
hence the clamp at 65535), else treated as 0; it is then clamped to 1024.
The seek is `SeekFrom::End(-size)` followed by `read_to_end`, i.e. the last
`size` bytes; on seek/read failure the fixed placeholder is returned. -/
def last_utf8_content_from_file (f : FileModel) : String :=
  let size0 := if f.metadataOk then min f.content.length 65535 else 0
  let size := min size0 MAX_STDERR_BYTES
  if f.seekReadOk then
    from_utf8_lossy (f.content.drop (f.content.length - size))
  else
    "<failed to read stderr>"

/-- Model of `std::process::ExitStatus` on unix: the raw wait status. -/
structure ExitStatus where
  waitStatus : Nat

/-- `ExitStatus::success`: the wait status is zero. -/
def ExitStatus.success (s : ExitStatus) : Bool := s.waitStatus == 0

/-- The `Debug` rendering of `ExitStatus` on unix,
`ExitStatus(unix_wait_status(N))`. -/
def ExitStatus.debugFmt (s : ExitStatus) : String :=
  "ExitStatus(unix_wait_status(" ++ toString s.waitStatus ++ "))"

/-- Observable I/O events of a runner invocation, used to state frame claims:
invoking the status checker, reading the captured stderr sink, and decoding
the captured stdout sink. -/
inductive Event where
  | checkStatus
  | readStderr
  | decodeStdout
deriving DecidableEq, Repr

/-- The distinct error kinds a runner can surface (in the Rust source these
are all `anyhow::Error` values, distinguished by their origin and message). -/
inductive Err where
  | tempfileCreate
  | tryClone
  | spawnWait
  | seekStdout
  | subprocess (msg : String)
  | decode (msg : String)
deriving DecidableEq, Repr

/-- Embedding of `ExitStatusExt::check_status`. Note the order in the source:
`last_utf8_content_from_file(stderr)` is evaluated first (recorded as a
`readStderr` event), and only then is `self.success()` tested. -/
def check_status (st : ExitStatus) (stderr : FileModel) : List Event × Except Err Unit :=
  let stderr_buf := last_utf8_content_from_file stderr
  ([Event.readStderr],
    if st.success then Except.ok ()
    else Except.error (Err.subprocess
      ("Subprocess failed: " ++ st.debugFmt ++ "\n" ++ stderr_buf)))

/-- The fallible environment of one blocking-runner invocation:
`tempfile::tempfile()` (`none` on creation failure), `try_clone` success, and
`self.status()` (`none` on spawn/wait failure; `some st` with the child's
exit status otherwise). -/
structure RunEnv where
  stderrSink : Option FileModel
  stderrCloneOk : Bool
  status : Option ExitStatus

/-- Embedding of `CommandRunExt::run` for `std::process::Command`: create the
stderr sink, clone a handle into the child, wait for the status, then apply
`check_status`. -/
def run (env : RunEnv) : List Event × Except Err Unit :=
  match env.stderrSink with
  | none => ([], Except.error Err.tempfileCreate)
  | some stderr =>
    if env.stderrCloneOk then
      match env.status with
      | none => ([], Except.error Err.spawnWait)
      | some st =>
        let p := check_status st stderr
        (Event.checkStatus :: p.1, p.2)
    else ([], Except.error Err.tryClone)

/-- Embedding of `AsyncCommandRunExt::run` for `tokio::process::Command`: the
same steps as `run`, with the wait being an await point (invisible to the
functional model). -/
def async_run (env : RunEnv) : List Event × Except Err Unit :=
  match env.stderrSink with
  | none => ([], Except.error Err.tempfileCreate)
  | some stderr =>
    if env.stderrCloneOk then
      match env.status with
      | none => ([], Except.error Err.spawnWait)
      | some st =>
        let p := check_status st stderr
        (Event.checkStatus :: p.1, p.2)
    else ([], Except.error Err.tryClone)

/-- JSON values, the target of the structured-output decode. Strings are kept
as their raw byte sequences (validated escape sequences stored verbatim);
numbers are kept as their raw lexeme (as in serde_json's arbitrary-precision
number representation) — the claims here concern token boundaries and
success/failure, not numeric interpretation. -/
inductive Json where
  | null
  | bool (b : Bool)
  | num (lexeme : List Nat)
  | str (s : List Nat)
  | arr (elems : List Json)
  | obj (fields : List (List Nat × Json))
deriving Repr

/-- JSON whitespace bytes: space, tab, line feed, carriage return. -/
def isWs (b : Nat) : Bool := b == 32 || b == 9 || b == 10 || b == 13

/-- Drop leading JSON whitespace. -/
def skipWs : List Nat → List Nat
  | [] => []
  | b :: rest => if isWs b then skipWs rest else b :: rest

/-- An ASCII digit byte. -/
def isDigit (b : Nat) : Bool := 48 ≤ b && b ≤ 57

/-- Split a byte list into its maximal leading run of digits and the rest. -/
def takeDigits : List Nat → List Nat × List Nat
  | [] => ([], [])
  | b :: rest =>
    if isDigit b then
      let p := takeDigits rest
      (b :: p.1, p.2)
    else ([], b :: rest)

/-- Parse the optional fraction part (`.` followed by at least one digit) and
optional exponent part (`e`/`E`, optional sign, at least one digit) of a JSON
number, per serde_json's grammar; `pre` is the lexeme consumed so far.
Returns the full number lexeme and the unconsumed rest; `none` when a `.` or
exponent marker is not followed by a digit (serde_json's invalid-number
error). -/
def parseFracExp (pre : List Nat) (l : List Nat) : Option (List Nat × List Nat) :=
  let p1 : Option (List Nat × List Nat) :=
    match l with
    | 46 :: r =>
      match takeDigits r with
      | ([], _) => none
      | (ds, r1) => some (pre ++ 46 :: ds, r1)
    | _ => some (pre, l)
  match p1 with
  | none => none
  | some (pre1, l1) =>
    match l1 with
    | e :: r =>
      if e == 101 || e == 69 then
        let sr : List Nat × List Nat :=
          match r with
          | 43 :: r1 => ([43], r1)
          | 45 :: r1 => ([45], r1)
          | _ => ([], r)
        match takeDigits sr.2 with
        | ([], _) => none
        | (ds, r2) => some (pre1 ++ e :: sr.1 ++ ds, r2)
      else some (pre1, l1)
    | [] => some (pre1, [])

/-- Parse a JSON number per serde_json's grammar: optional minus sign, then
an integer part that is `0` or a nonzero digit followed by a maximal digit
run, then optional fraction and exponent parts — all greedy. Returns the
number's lexeme and the unconsumed rest. -/
def parseNumber (l : List Nat) : Option (List Nat × List Nat) :=
  let p : List Nat × List Nat :=
    match l with
    | 45 :: rest => ([45], rest)
    | _ => ([], l)
  match p.2 with
  | [] => none
  | b :: rest =>
    if b == 48 then parseFracExp (p.1 ++ [48]) rest
    else if isDigit b then
      let q := takeDigits rest
      parseFracExp (p.1 ++ b :: q.1) q.2
    else none

/-- An ASCII hexadecimal digit byte. -/
def isHexDigit (b : Nat) : Bool :=
  (48 ≤ b && b ≤ 57) || (97 ≤ b && b ≤ 102) || (65 ≤ b && b ≤ 70)

/-- Value of a hexadecimal digit byte. -/
def hexVal (b : Nat) : Nat :=
  if b ≤ 57 then b - 48 else if b ≤ 70 then b - 55 else b - 87

/-- Parse the body of a JSON string after the opening quote, up to and
including the closing quote, with serde_json's string validation: raw
control bytes below 0x20 are rejected; the only escapes are `\"`, `\\`,
`\/`, `\b`, `\f`, `\n`, `\r`, `\t` and `\u` with four hex digits, where a
leading surrogate must be followed by a `\u` trailing surrogate and a lone
trailing surrogate is rejected; bytes above 0x7F must form valid UTF-8
sequences. The content is kept verbatim (escapes undecoded). Fuel
`l.length + 1` always suffices. -/
def parseStringBody : Nat → List Nat → Option (List Nat × List Nat)
  | 0, _ => none
  | _, [] => none
  | Nat.succ fuel, b :: rest =>
    if b == 34 then some ([], rest)
    else if b == 92 then
      match rest with
      | [] => none
      | e :: rest1 =>
        if e == 34 || e == 92 || e == 47 || e == 98 || e == 102
            || e == 110 || e == 114 || e == 116 then
          match parseStringBody fuel rest1 with
          | some (s, r) => some (92 :: e :: s, r)
          | none => none
        else if e == 117 then
          match rest1 with
          | h1 :: h2 :: h3 :: h4 :: rest2 =>
            if isHexDigit h1 && isHexDigit h2 && isHexDigit h3 && isHexDigit h4 then
              let n := ((hexVal h1 * 16 + hexVal h2) * 16 + hexVal h3) * 16 + hexVal h4
              if 0xDC00 ≤ n && n ≤ 0xDFFF then none
              else if 0xD800 ≤ n && n ≤ 0xDBFF then
                match rest2 with
                | 92 :: 117 :: g1 :: g2 :: g3 :: g4 :: rest3 =>
                  if isHexDigit g1 && isHexDigit g2 && isHexDigit g3 && isHexDigit g4 then
                    let m := ((hexVal g1 * 16 + hexVal g2) * 16 + hexVal g3) * 16 + hexVal g4
                    if 0xDC00 ≤ m && m ≤ 0xDFFF then
                      match parseStringBody fuel rest3 with
                      | some (s, r) =>
                        some (92 :: 117 :: h1 :: h2 :: h3 :: h4
                          :: 92 :: 117 :: g1 :: g2 :: g3 :: g4 :: s, r)
                      | none => none
                    else none
                  else none
                | _ => none
              else
                match parseStringBody fuel rest2 with
                | some (s, r) => some (92 :: 117 :: h1 :: h2 :: h3 :: h4 :: s, r)
                | none => none
            else none
          | _ => none
        else none
    else if b < 32 then none
    else if b ≤ 0x7F then
      match parseStringBody fuel rest with
      | some (s, r) => some (b :: s, r)
      | none => none
    else if 0xC2 ≤ b && b ≤ 0xDF then
      match rest with
      | b1 :: rest1 =>
        if isCont b1 then
          match parseStringBody fuel rest1 with
          | some (s, r) => some (b :: b1 :: s, r)
          | none => none
        else none
      | [] => none
    else if 0xE0 ≤ b && b ≤ 0xEF then
      let lo := if b == 0xE0 then 0xA0 else 0x80
      let hi := if b == 0xED then 0x9F else 0xBF
      match rest with
      | b1 :: b2 :: rest1 =>
        if lo ≤ b1 && b1 ≤ hi && isCont b2 then
          match parseStringBody fuel rest1 with
          | some (s, r) => some (b :: b1 :: b2 :: s, r)
          | none => none
        else none
      | _ => none
    else if 0xF0 ≤ b && b ≤ 0xF4 then
      let lo := if b == 0xF0 then 0x90 else 0x80
      let hi := if b == 0xF4 then 0x8F else 0xBF
      match rest with
      | b1 :: b2 :: b3 :: rest1 =>
        if lo ≤ b1 && b1 ≤ hi && isCont b2 && isCont b3 then
          match parseStringBody fuel rest1 with
          | some (s, r) => some (b :: b1 :: b2 :: b3 :: s, r)
          | none => none
        else none
      | _ => none
    else none

mutual

/-- Modelled from serde_json: parse one JSON value (skipping leading
whitespace), returning it and the unconsumed rest of the input. `none` is a
syntax error. -/
def parseValue : Nat → List Nat → Option (Json × List Nat)
  | 0, _ => none
  | Nat.succ fuel, l =>
    match skipWs l with
    | [] => none
    | b :: rest =>
      if b == 110 then
        match rest with
        | 117 :: 108 :: 108 :: r => some (Json.null, r)
        | _ => none
      else if b == 116 then
        match rest with
        | 114 :: 117 :: 101 :: r => some (Json.bool true, r)
        | _ => none
      else if b == 102 then
        match rest with
        | 97 :: 108 :: 115 :: 101 :: r => some (Json.bool false, r)
        | _ => none
      else if b == 34 then
        match parseStringBody (rest.length + 1) rest with
        | some (s, r) => some (Json.str s, r)
        | none => none
      else if b == 91 then
        match skipWs rest with
        | 93 :: r => some (Json.arr [], r)
        | _ =>
          match parseElems fuel rest with
          | some (xs, r) => some (Json.arr xs, r)
          | none => none
      else if b == 123 then
        match skipWs rest with
        | 125 :: r => some (Json.obj [], r)
        | _ =>
          match parseFields fuel rest with
          | some (fs, r) => some (Json.obj fs, r)
          | none => none
      else if b == 45 || isDigit b then
        match parseNumber (b :: rest) with
        | some (lex, r) => some (Json.num lex, r)
        | none => none
      else none

/-- Parse the comma-separated elements of a non-empty array, consuming the
closing bracket. -/
def parseElems : Nat → List Nat → Option (List Json × List Nat)
  | 0, _ => none
  | Nat.succ fuel, l =>
    match parseValue fuel l with
    | none => none
    | some (v, r) =>
      match skipWs r with
      | 44 :: r1 =>
        match parseElems fuel r1 with
        | some (xs, r2) => some (v :: xs, r2)
        | none => none
      | 93 :: r1 => some ([v], r1)
      | _ => none

/-- Parse the comma-separated fields of a non-empty object, consuming the
closing brace. -/
def parseFields : Nat → List Nat → Option (List (List Nat × Json) × List Nat)
  | 0, _ => none
  | Nat.succ fuel, l =>
    match skipWs l with
    | 34 :: rest =>
      match parseStringBody (rest.length + 1) rest with
      | none => none
      | some (k, r) =>
        match skipWs r with
        | 58 :: r1 =>
          match parseValue fuel r1 with
          | none => none
          | some (v, r2) =>
            match skipWs r2 with
            | 44 :: r3 =>
              match parseFields fuel r3 with
              | some (fs, r4) => some ((k, v) :: fs, r4)
              | none => none
            | 125 :: r3 => some ([(k, v)], r3)
            | _ => none
        | _ => none
    | _ => none

end

/-- Modelled from serde_json: `serde_json::from_reader` semantics — parse
exactly one JSON value from the full contents and then require only
whitespace up to end of input, failing with a trailing-characters error
otherwise (serde_json's `Deserializer::end`). -/
def from_reader (l : List Nat) : Except String Json :=
  match parseValue (2 * l.length + 2) l with
  | none => Except.error "syntax error"
  | some (v, rest) =>
    if (skipWs rest).isEmpty then Except.ok v
    else Except.error "trailing characters"

/-- Whether a structured-output execution result is a decode failure (as
opposed to a success or any other error kind). -/
def isDecodeFailure (r : Except Err Json) : Bool :=
  match r with
  | Except.error (Err.decode _) => true
  | _ => false

/-- The fallible environment of one `run_and_parse_json` invocation: the
stdout tempfile, its `try_clone`, the inner blocking-run environment, and the
`seek(Start(0))` on the captured stdout. -/
structure JsonRunEnv where
  stdoutSink : Option FileModel
  stdoutCloneOk : Bool
  runEnv : RunEnv
  stdoutSeekOk : Bool

/-- Embedding of `CommandRunExt::run_and_parse_json`: create the stdout sink,
clone a handle into the child, delegate to `run`, and only on its success
seek the sink to its start and decode the full contents as JSON. -/
def run_and_parse_json (env : JsonRunEnv) : List Event × Except Err Json :=
  match env.stdoutSink with
  | none => ([], Except.error Err.tempfileCreate)
  | some stdout =>
    if env.stdoutCloneOk then
      let p := run env.runEnv
      match p.2 with
      | Except.error e => (p.1, Except.error e)
      | Except.ok _ =>
        if env.stdoutSeekOk then
          match from_reader stdout.content with
          | Except.ok v => (p.1 ++ [Event.decodeStdout], Except.ok v)
          | Except.error m => (p.1 ++ [Event.decodeStdout], Except.error (Err.decode m))
        else (p.1, Except.error Err.seekStdout)
    else ([], Except.error Err.tryClone)

/-- Helper: the blocking runner's event trace never contains a stdout-decode
event (only `run_and_parse_json` decodes stdout). -/
theorem run_trace_no_decode (env : RunEnv) : Event.decodeStdout ∉ (run env).1 := by
  obtain ⟨s, c, st⟩ := env
  cases s <;> cases c <;> cases st <;> simp [run, check_status]

/-- C1: for every command whose child terminates with a non-success exit
status, the blocking runner fails with rendered message exactly
"Subprocess failed: " followed by the exit status's debug form, a newline,
and the diagnostic tail of the captured stderr sink. -/
theorem claim_C1_failure_message (env : RunEnv) (f : FileModel) (st : ExitStatus)
    (hs : env.stderrSink = some f) (hc : env.stderrCloneOk = true)
    (hst : env.status = some st) (hfail : st.success = false) :
    (run env).2 = Except.error (Err.subprocess
      ("Subprocess failed: " ++ st.debugFmt ++ "\n" ++ last_utf8_content_from_file f)) := by
  simp [run, hs, hc, hst, check_status, hfail]

/-- C1 witness: a child with wait status 256 and stderr content "ok\n". -/
theorem claim_C1_failure_message_witness :
    (run ⟨some ⟨[111, 107, 10], true, true⟩, true, some ⟨256⟩⟩).2
      = Except.error (Err.subprocess ("Subprocess failed: "
          ++ ExitStatus.debugFmt ⟨256⟩ ++ "\n"
          ++ last_utf8_content_from_file ⟨[111, 107, 10], true, true⟩))
    ∧ ("Subprocess failed: " ++ ExitStatus.debugFmt ⟨256⟩ ++ "\n"
          ++ last_utf8_content_from_file ⟨[111, 107, 10], true, true⟩)
      = "Subprocess failed: ExitStatus(unix_wait_status(256))\nok\n" :=
  ⟨claim_C1_failure_message ⟨some ⟨[111, 107, 10], true, true⟩, true, some ⟨256⟩⟩
      ⟨[111, 107, 10], true, true⟩ ⟨256⟩ rfl rfl rfl rfl, rfl⟩

/-- C2: for every command whose child terminates with a success exit status,
both the blocking and the non-blocking runner return success (unit),
regardless of the bytes in the captured stderr sink. -/
theorem claim_C2_success_returns_unit (env : RunEnv) (f : FileModel) (st : ExitStatus)
    (hs : env.stderrSink = some f) (hc : env.stderrCloneOk = true)
    (hst : env.status = some st) (hok : st.success = true) :
    (run env).2 = Except.ok () ∧ (async_run env).2 = Except.ok () := by
  constructor <;> simp [run, async_run, hs, hc, hst, check_status, hok]

/-- C2 witness: a successful child whose stderr sink holds the bytes "bad". -/
theorem claim_C2_success_returns_unit_witness :
    (run ⟨some ⟨[98, 97, 100], true, true⟩, true, some ⟨0⟩⟩).2 = Except.ok ()
    ∧ (async_run ⟨some ⟨[98, 97, 100], true, true⟩, true, some ⟨0⟩⟩).2 = Except.ok () :=
  claim_C2_success_returns_unit ⟨some ⟨[98, 97, 100], true, true⟩, true, some ⟨0⟩⟩
    ⟨[98, 97, 100], true, true⟩ ⟨0⟩ rfl rfl rfl rfl

/-- C3: when metadata and seek/read succeed, the tail reader returns exactly
the lossy UTF-8 decoding of the last min(size, 1024) bytes of the sink (also
for sizes above 65535, via the u16 clamp), the covered byte range never
exceeds 1024 bytes, and invalid UTF-8 is replaced with U+FFFD rather than
causing an error (shown on the spec's example byte sequence). -/
theorem claim_C3_tail_reader (f : FileModel) (hm : f.metadataOk = true)
    (hr : f.seekReadOk = true) :
    last_utf8_content_from_file f
      = from_utf8_lossy (f.content.drop (f.content.length - min f.content.length 1024))
    ∧ (f.content.drop (f.content.length - min f.content.length 1024)).length ≤ 1024
    ∧ from_utf8_lossy [101, 120, 112, 101, 99, 116, 101, 100, 245, 128, 128, 128, 128,
        45, 102, 111, 111, 192, 98, 97, 114, 192, 192]
      = "expected" ++ String.mk (List.replicate 5 replChar) ++ "-foo"
        ++ String.mk [replChar] ++ "bar" ++ String.mk [replChar, replChar] := by
  refine ⟨?_, ?_, rfl⟩
  · have hmin : min (min f.content.length 65535) MAX_STDERR_BYTES
        = min f.content.length 1024 := by
      simp only [MAX_STDERR_BYTES]
      omega
    simp only [last_utf8_content_from_file, hm, hr, if_true, hmin]
  · simp only [List.length_drop]
    omega

/-- C3 witness: a two-byte sink. -/
theorem claim_C3_tail_reader_witness :
    last_utf8_content_from_file ⟨[104, 105], true, true⟩ = from_utf8_lossy [104, 105]
    ∧ ([104, 105] : List Nat).length ≤ 1024
    ∧ from_utf8_lossy [101, 120, 112, 101, 99, 116, 101, 100, 245, 128, 128, 128, 128,
        45, 102, 111, 111, 192, 98, 97, 114, 192, 192]
      = "expected" ++ String.mk (List.replicate 5 replChar) ++ "-foo"
        ++ String.mk [replChar] ++ "bar" ++ String.mk [replChar, replChar] :=
  claim_C3_tail_reader ⟨[104, 105], true, true⟩ rfl rfl

/-- C4 counterexample: on a success exit status the stderr sink IS read —
`check_status` evaluates `last_utf8_content_from_file` before testing
`success()`, so the read event appears in the trace even on the success
path, contradicting the claim that no read is performed there. -/
theorem claim_C4_counterexample :
    ExitStatus.success ⟨0⟩ = true
    ∧ Event.readStderr ∈ (check_status ⟨0⟩ ⟨[111], true, true⟩).1 := by
  exact ⟨rfl, by simp [check_status]⟩

/-- C4 amended: when the exit outcome signals success the status checker
returns success, but the error sink is read unconditionally (the tail read
happens before the success test); the read content is simply discarded. -/
theorem claim_C4_amended (st : ExitStatus) (f : FileModel) (hok : st.success = true) :
    check_status st f = ([Event.readStderr], Except.ok ()) := by
  simp [check_status, hok]

/-- C4 witness: success status 0, stderr content "o". -/
theorem claim_C4_amended_witness :
    check_status ⟨0⟩ ⟨[111], true, true⟩ = ([Event.readStderr], Except.ok ()) :=
  claim_C4_amended ⟨0⟩ ⟨[111], true, true⟩ rfl

/-- C5: the tail reader is total by type (it returns a plain `String`), and
on a seek/read failure it returns the fixed literal placeholder. -/
theorem claim_C5_placeholder (f : FileModel) (h : f.seekReadOk = false) :
    last_utf8_content_from_file f = "<failed to read stderr>" := by
  simp [last_utf8_content_from_file, h]

/-- C5 witness: a sink whose seek/read fails. -/
theorem claim_C5_placeholder_witness :
    last_utf8_content_from_file ⟨[1, 2, 3], true, false⟩ = "<failed to read stderr>" :=
  claim_C5_placeholder ⟨[1, 2, 3], true, false⟩ rfl

/-- C6: if the inner blocking run fails, `run_and_parse_json` propagates that
failure unchanged and performs no stdout decode (no decode event in the
trace); a decode failure is a distinct error kind from a command failure. -/
theorem claim_C6_no_decode_on_failure (env : JsonRunEnv) (f : FileModel)
    (tr : List Event) (e : Err)
    (hs : env.stdoutSink = some f) (hc : env.stdoutCloneOk = true)
    (hrun : run env.runEnv = (tr, Except.error e)) :
    run_and_parse_json env = (tr, Except.error e)
    ∧ Event.decodeStdout ∉ tr
    ∧ ∀ m1 m2, Err.decode m1 ≠ Err.subprocess m2 := by
  refine ⟨?_, ?_, ?_⟩
  · simp [run_and_parse_json, hs, hc, hrun]
  · have h := run_trace_no_decode env.runEnv
    rw [hrun] at h
    exact h
  · intro m1 m2 hcontra
    cases hcontra

/-- C6 witness: an inner run failing with wait status 256 and empty stderr. -/
theorem claim_C6_no_decode_on_failure_witness :
    run_and_parse_json ⟨some ⟨[], true, true⟩, true, ⟨some ⟨[], true, true⟩, true,
        some ⟨256⟩⟩, true⟩
      = ([Event.checkStatus, Event.readStderr], Except.error
          (Err.subprocess "Subprocess failed: ExitStatus(unix_wait_status(256))\n"))
    ∧ Event.decodeStdout ∉ [Event.checkStatus, Event.readStderr]
    ∧ Err.decode "bad json" ≠ Err.subprocess "Subprocess failed: x" :=
  ⟨(claim_C6_no_decode_on_failure ⟨some ⟨[], true, true⟩, true, ⟨some ⟨[], true, true⟩,
      true, some ⟨256⟩⟩, true⟩ ⟨[], true, true⟩ [Event.checkStatus, Event.readStderr]
      (Err.subprocess "Subprocess failed: ExitStatus(unix_wait_status(256))\n")
      rfl rfl rfl).1,
   (claim_C6_no_decode_on_failure ⟨some ⟨[], true, true⟩, true, ⟨some ⟨[], true, true⟩,
      true, some ⟨256⟩⟩, true⟩ ⟨[], true, true⟩ [Event.checkStatus, Event.readStderr]
      (Err.subprocess "Subprocess failed: ExitStatus(unix_wait_status(256))\n")
      rfl rfl rfl).2.1,
   (claim_C6_no_decode_on_failure ⟨some ⟨[], true, true⟩, true, ⟨some ⟨[], true, true⟩,
      true, some ⟨256⟩⟩, true⟩ ⟨[], true, true⟩ [Event.checkStatus, Event.readStderr]
      (Err.subprocess "Subprocess failed: ExitStatus(unix_wait_status(256))\n")
      rfl rfl rfl).2.2 "bad json" "Subprocess failed: x"⟩

/-- C7: sink-creation failure, and spawn/wait failure (and also handle-clone
failure) each make the blocking runner return immediately with an
infrastructure error and an empty event trace — so the status checker is not
invoked and the stderr sink not read — and each such error is distinct from
every `Subprocess failed` command-failure error. -/
theorem claim_C7_infra_errors (env : RunEnv) :
    (env.stderrSink = none → run env = ([], Except.error Err.tempfileCreate))
    ∧ (∀ f, env.stderrSink = some f → env.stderrCloneOk = false →
        run env = ([], Except.error Err.tryClone))
    ∧ (∀ f, env.stderrSink = some f → env.stderrCloneOk = true → env.status = none →
        run env = ([], Except.error Err.spawnWait))
    ∧ (∀ m, Err.tempfileCreate ≠ Err.subprocess m
        ∧ Err.tryClone ≠ Err.subprocess m ∧ Err.spawnWait ≠ Err.subprocess m) := by
  refine ⟨?_, ?_, ?_, ?_⟩
  · intro h; simp [run, h]
  · intro f h1 h2; simp [run, h1, h2]
  · intro f h1 h2 h3; simp [run, h1, h2, h3]
  · intro m
    refine ⟨?_, ?_, ?_⟩ <;> intro hcontra <;> cases hcontra

/-- C7 witness: the three infrastructure failures at concrete environments,
and distinctness against a concrete command-failure error. -/
theorem claim_C7_infra_errors_witness :
    run ⟨none, true, none⟩ = ([], Except.error Err.tempfileCreate)
    ∧ run ⟨some ⟨[], true, true⟩, false, none⟩ = ([], Except.error Err.tryClone)
    ∧ run ⟨some ⟨[], true, true⟩, true, none⟩ = ([], Except.error Err.spawnWait)
    ∧ (Err.tempfileCreate ≠ Err.subprocess "Subprocess failed: x"
        ∧ Err.tryClone ≠ Err.subprocess "Subprocess failed: x"
        ∧ Err.spawnWait ≠ Err.subprocess "Subprocess failed: x") :=
  ⟨(claim_C7_infra_errors ⟨none, true, none⟩).1 rfl,
   (claim_C7_infra_errors ⟨some ⟨[], true, true⟩, false, none⟩).2.1 ⟨[], true, true⟩ rfl rfl,
   (claim_C7_infra_errors ⟨some ⟨[], true, true⟩, true, none⟩).2.2.1 ⟨[], true, true⟩
     rfl rfl rfl,
   (claim_C7_infra_errors ⟨none, true, none⟩).2.2.2 "Subprocess failed: x"⟩

/-- C8: the non-blocking runner's result (trace and execution result alike)
is identical to the blocking runner's on every environment: same success
value, same failure message shape, same 1024-byte truncation, same omission
of the command text. -/
theorem claim_C8_async_equals_sync : ∀ env : RunEnv, async_run env = run env :=
  fun _ => rfl

/-- C9: when the metadata query fails (and the seek/read of zero bytes then
succeeds), the tail reader treats the size as 0 and returns the empty string
— not the placeholder — propagating no error. -/
theorem claim_C9_metadata_failure_empty (f : FileModel) (hm : f.metadataOk = false)
    (hr : f.seekReadOk = true) :
    last_utf8_content_from_file f = "" ∧ ("" : String) ≠ "<failed to read stderr>" := by
  constructor
  · have h0 : from_utf8_lossy [] = "" := rfl
    simp [last_utf8_content_from_file, hm, hr, h0]
  · decide

/-- C9 witness: a sink with content whose metadata query fails. -/
theorem claim_C9_metadata_failure_empty_witness :
    last_utf8_content_from_file ⟨[1, 2, 3], false, true⟩ = ""
    ∧ ("" : String) ≠ "<failed to read stderr>" :=
  claim_C9_metadata_failure_empty ⟨[1, 2, 3], false, true⟩ rfl rfl

/-- C10 counterexample: stdout bytes "427" are a valid encoding of the number
42 ("42") followed by the non-whitespace byte "7" (55), yet the
structured-output runner succeeds and returns the number 427 — numbers are
parsed greedily, so no decode failure occurs, contradicting the claim as
stated. -/
theorem claim_C10_counterexample :
    from_reader [52, 50] = Except.ok (Json.num [52, 50])
    ∧ isWs 55 = false
    ∧ (run_and_parse_json ⟨some ⟨[52, 50, 55], true, true⟩, true,
        ⟨some ⟨[], true, true⟩, true, some ⟨0⟩⟩, true⟩).2
      = Except.ok (Json.num [52, 50, 55])
    ∧ isDecodeFailure (run_and_parse_json ⟨some ⟨[52, 50, 55], true, true⟩, true,
        ⟨some ⟨[], true, true⟩, true, some ⟨0⟩⟩, true⟩).2 = false :=
  ⟨rfl, rfl, rfl, rfl⟩

/-- C10 amended: the decode reads the output sink's full contents from the
start and greedily parses one structured value (numbers including their
fraction and exponent parts); if any non-whitespace bytes remain after the
greedily parsed value, the runner returns a decode failure rather than a
decoded value. Trailing bytes that merely extend the value's own encoding
(e.g. further digits, a fraction or an exponent after a number) instead
extend the parse and yield the longer value. -/
theorem claim_C10_amended (env : JsonRunEnv) (f : FileModel) (v : Json) (rest : List Nat)
    (hs : env.stdoutSink = some f) (hc : env.stdoutCloneOk = true)
    (hrun : (run env.runEnv).2 = Except.ok ()) (hseek : env.stdoutSeekOk = true)
    (hp : parseValue (2 * f.content.length + 2) f.content = some (v, rest))
    (htrail : (skipWs rest).isEmpty = false) :
    isDecodeFailure (run_and_parse_json env).2 = true := by
  have hfr : from_reader f.content = Except.error "trailing characters" := by
    simp [from_reader, hp, htrail]
  cases hre : run env.runEnv with
  | mk tr r =>
    have hr2 : r = Except.ok () := by
      rw [hre] at hrun
      exact hrun
    subst hr2
    simp [run_and_parse_json, hs, hc, hre, hseek, hfr, isDecodeFailure]

/-- C10 witness: stdout "42 x" — the number 42 followed by whitespace and a
non-whitespace byte — yields a decode failure. -/
theorem claim_C10_amended_witness :
    isDecodeFailure (run_and_parse_json ⟨some ⟨[52, 50, 32, 120], true, true⟩, true,
        ⟨some ⟨[], true, true⟩, true, some ⟨0⟩⟩, true⟩).2 = true :=
  claim_C10_amended ⟨some ⟨[52, 50, 32, 120], true, true⟩, true,
      ⟨some ⟨[], true, true⟩, true, some ⟨0⟩⟩, true⟩
    ⟨[52, 50, 32, 120], true, true⟩ (Json.num [52, 50]) [32, 120] rfl rfl rfl rfl rfl rfl

end Cmdutils
